import Mathlib

/-!
# ContractML — verification of the Contract Execution & Migration Engine

Shallow embedding of the core of the ContractML repository:

* `src/app/rules/{repair,validation,drift}.py` — the rule pipeline;
* `src/app/contracts/base.py` — `DynamicContract` (dynamic Pydantic model);
* `src/app/contracts/migration.py` — `MigrationEngine`;
* `src/app/contracts/registry.py` — `ContractRegistry`;
* `src/app/performance.py` — the `timed_cache` wrapper (interleaving model).

Python `float` values are modelled as rationals (`ℚ`): every numeric literal
appearing in the schemas, payloads and rules under verification is a small
decimal, on which IEEE-754 arithmetic is exact, so the rational model agrees
with the code.  Python dictionaries are modelled as insertion-ordered
association lists (`kvLookup` / `kvUpdate` mirror `d[k]` and `d[k] = v`).
Fallible Python code (raised exceptions) is modelled with `Except`.
-/

namespace ContractML

/-- A Python value as it appears in payloads and configs: `None`, `float`,
`int`, `str` or `bool`. -/
inductive Value where
  | vnone : Value
  | vfloat : ℚ → Value
  | vint : Int → Value
  | vstr : String → Value
  | vbool : Bool → Value
  deriving DecidableEq

/-- A payload / validated-data mapping: an insertion-ordered dict. -/
abbrev Payload := List (String × Value)

/-- Dict lookup `d.get(k)`: first binding for the key, if any. -/
def kvLookup {κ β : Type} [DecidableEq κ] : List (κ × β) → κ → Option β
  | [], _ => none
  | (k', v') :: rest, k => if k' = k then some v' else kvLookup rest k

/-- Dict assignment `d[k] = v`: overwrite in place if the key is present
(keeping its position, as Python dicts do), else append. -/
def kvUpdate {κ β : Type} [DecidableEq κ] : List (κ × β) → κ → β → List (κ × β)
  | [], k, v => [(k, v)]
  | (k', v') :: rest, k, v =>
      if k' = k then (k, v) :: rest else (k', v') :: kvUpdate rest k v

theorem kvLookup_kvUpdate_self {κ β : Type} [DecidableEq κ]
    (m : List (κ × β)) (k : κ) (v : β) : kvLookup (kvUpdate m k v) k = some v := by
  induction m with
  | nil => simp [kvUpdate, kvLookup]
  | cons hd tl ih =>
      by_cases h : hd.1 = k
      · simp [kvUpdate, kvLookup, h]
      · simpa [kvUpdate, kvLookup, h] using ih

/-! ## Version parsing and comparison

`migration.py` compares versions with
`version.parse(v.replace('v', ''))` from `packaging`.  We model the
numeric-release fragment of PEP 440 (dotted numeric components, trailing
zeros insignificant); strings with any non-numeric component make
`version.parse` raise `InvalidVersion` (packaging ≥ 22), modelled as
`none`. -/

/-- `v.replace('v', '')`: remove every `'v'` character. -/
def stripV (s : String) : List Char := s.toList.filter (fun c => c ≠ 'v')

/-- Split a character list on `'.'` (like `"a.b".split('.')`). -/
def splitDots : List Char → List (List Char)
  | [] => [[]]
  | c :: cs =>
      if c = '.' then [] :: splitDots cs
      else
        match splitDots cs with
        | [] => [[c]]
        | p :: ps => (c :: p) :: ps

/-- Digit value of a character, if it is a decimal digit. -/
def digitVal (c : Char) : Option Nat :=
  if c.isDigit then some (c.toNat - 48) else none

/-- Parse a non-empty all-digit component. -/
def parseNatChars (cs : List Char) : Option Nat :=
  if cs = [] then none
  else cs.foldl (fun acc c => acc.bind fun n => (digitVal c).map (fun d => n * 10 + d)) (some 0)

/-- Parse every dotted component, failing if any fails. -/
def parseVersionChars (cs : List Char) : Option (List Nat) :=
  (splitDots cs).foldr
    (fun p acc => (parseNatChars p).bind fun n => acc.map (fun l => n :: l)) (some [])

/-- `version.parse(v.replace('v',''))`: the numeric release tuple, or `none`
when parsing raises. -/
def pv (s : String) : Option (List Nat) := parseVersionChars (stripV s)

/-- PEP 440 release comparison: pad the shorter tuple with zeros, then
compare lexicographically. -/
def verCmp : List Nat → List Nat → Ordering
  | [], ys => if ys.all (fun y => y = 0) then .eq else .lt
  | x :: xs, [] => if 0 < x then .gt else verCmp xs []
  | x :: xs, y :: ys =>
      if x < y then .lt else if y < x then .gt else verCmp xs ys

/-- Strict `<` on parsed version tuples. -/
def versionLt (a b : List Nat) : Bool := verCmp a b = Ordering.lt

instance {ε α : Type} [DecidableEq ε] [DecidableEq α] : DecidableEq (Except ε α) :=
  fun a b =>
    match a, b with
    | .ok x, .ok y =>
        if h : x = y then isTrue (by rw [h]) else isFalse (by simp [h])
    | .error x, .error y =>
        if h : x = y then isTrue (by rw [h]) else isFalse (by simp [h])
    | .ok _, .error _ => isFalse (by simp)
    | .error _, .ok _ => isFalse (by simp)

theorem verCmp_self (l : List Nat) : verCmp l l = Ordering.eq := by
  induction l with
  | nil => simp [verCmp]
  | cons x xs ih => simp [verCmp, ih]

theorem versionLt_irrefl (l : List Nat) : versionLt l l = false := by
  simp [versionLt, verCmp_self]

/-! ## Field and contract configuration (`loader.py`, YAML schema shape)

The YAML schema files under `schemas/<domain>/<version>.yaml` are data, not
code under `src/`; their shape is taken from how `base.py`, `repair.py`,
`validation.py` and `drift.py` read the loaded dict (`config["fields"]`,
and per-field keys `type`, `min`, `max`, `default`, `repair`, `validation`,
`drift`, plus top-level `ml_model`). -/

/-- A field's `drift` directive (`drift.py` reads `type`, `expected_mean`,
`threshold`). -/
structure DriftConfig where
  dtype : String := "mean_shift"
  expectedMean : Option ℚ := none
  threshold : Option ℚ := none

/-- One field's configuration dict.  `patternPred` stands for the compiled
regex of a `pattern` entry (`re.match` is an external library; we model the
compiled pattern as an abstract predicate on strings). -/
structure FieldConfig where
  ftype : String := "float"
  minB : Option ℚ := none
  maxB : Option ℚ := none
  defaultV : Option Value := none
  repairR : Option String := none
  validateR : Option String := none
  driftR : Option DriftConfig := none
  patternPred : Option (String → Bool) := none

/-- A loaded contract configuration (`ContractLoader.load` result):
the ordered `fields` mapping and the optional inference backend.
`mlPredict` stands for the loaded backend's `predict` on the positional
float vector (the backend itself is an external collaborator; `none`
means no `ml_model` entry). -/
structure ContractConfig where
  fields : List (String × FieldConfig) := []
  mlPredict : Option (List ℚ → List ℚ) := none

/-- Numeric view of a value, as Python arithmetic/comparisons accept it:
`float`, `int` and `bool` (`True == 1`, `False == 0`) are numbers; `None`
and `str` mixed with a number raise `TypeError` (modelled as `none`). -/
def toNum : Value → Option ℚ
  | .vfloat q => some q
  | .vint n => some (n : ℚ)
  | .vbool b => some (if b then 1 else 0)
  | _ => none

/-- Error taxonomy of the embedded core (`errors.py` plus the Python
builtins the code lets escape). -/
inductive CErr where
  | contractNotFound (domain version : String)
  | validationFailed (field : String)
  | typeErr
  | noVersions (domain : String)
  deriving DecidableEq

/-! ## Rule pipeline (`src/app/rules/repair.py`, `validation.py`, `drift.py`) -/

/-- `RepairRule.apply`: clamp coerces an out-of-range value to the nearest
bound; default substitutes `config.get("default")` for `None`; unknown rule
kinds return the value unchanged.  A comparison between a non-number and a
bound raises `TypeError` in Python, modelled as `.error .typeErr`. -/
def RepairRule.applyR (ruleType : String) (v : Value) (cfg : FieldConfig) :
    Except CErr Value :=
  if ruleType = "clamp" then
    match cfg.minB with
    | some m =>
        match toNum v with
        | none => .error .typeErr
        | some q =>
            if q < m then .ok (.vfloat m)
            else
              match cfg.maxB with
              | some mx => if mx < q then .ok (.vfloat mx) else .ok v
              | none => .ok v
    | none =>
        match cfg.maxB with
        | some mx =>
            match toNum v with
            | none => .error .typeErr
            | some q => if mx < q then .ok (.vfloat mx) else .ok v
        | none => .ok v
  else if ruleType = "default" then
    match v with
    | .vnone => .ok (cfg.defaultV.getD .vnone)
    | _ => .ok v
  else .ok v

/-- `ValidationRule.apply`: range raises `ValueError` outside the bounds
(field-scoped `ValidationError` once wrapped); regex checks the pattern on
strings only.  Comparing a non-number with a bound raises `TypeError`. -/
def ValidationRule.applyV (ruleType : String) (fieldName : String) (v : Value)
    (cfg : FieldConfig) : Except CErr Unit :=
  if ruleType = "range" then
    match cfg.minB with
    | some m =>
        match toNum v with
        | none => .error .typeErr
        | some q =>
            if q < m then .error (.validationFailed fieldName)
            else
              match cfg.maxB with
              | some mx =>
                  if mx < q then .error (.validationFailed fieldName) else .ok ()
              | none => .ok ()
    | none =>
        match cfg.maxB with
        | some mx =>
            match toNum v with
            | none => .error .typeErr
            | some q =>
                if mx < q then .error (.validationFailed fieldName) else .ok ()
        | none => .ok ()
  else if ruleType = "regex" then
    match v with
    | .vstr s =>
        match cfg.patternPred with
        | some p => if p s then .ok () else .error (.validationFailed fieldName)
        | none => .ok ()
    | _ => .ok ()
  else .ok ()

/-- `DriftDetector.check_drift`: for `mean_shift`, trip when
`abs(value - expected_mean) > threshold` (threshold defaults to `2.0`);
no `expected_mean`, or an unknown drift type, never trips.  Subtracting a
non-number raises `TypeError`. -/
def DriftDetector.checkDrift (cfg : DriftConfig) (v : Value) : Except CErr Bool :=
  if cfg.dtype = "mean_shift" then
    match cfg.expectedMean with
    | some m =>
        match toNum v with
        | none => .error .typeErr
        | some q => .ok (decide (cfg.threshold.getD 2 < |q - m|))
    | none => .ok false
  else .ok false

/-! ## Migration engine (`src/app/contracts/migration.py`)

The filesystem (schema files under `schemas/<domain>/` and migration
scripts `migrations/<domain>_<from>_to_<to>.py`) is the environment of the
engine.  `availableVersions` models `get_available_versions`' result: the
YAML stems of the domain, sorted by `version.parse` of the numeric
component.  `scripts` models the migration-script table: `none` when the
script file does not exist; a present script is a payload transform whose
`none` result models the script raising at runtime (both cases are folded
into "no direct path" by `_try_direct_migration`'s `except`). -/

structure RegistryEnv where
  schemaSource : String → String → Option ContractConfig
  availableVersions : String → List String
  scripts : String → String → String → Option (Payload → Option Payload)

namespace MigrationEngine

/-- `get_latest_version`: last of the sorted available versions. -/
def getLatestVersion (env : RegistryEnv) (domain : String) : Option String :=
  (env.availableVersions domain).getLast?

/-- `needs_migration`: strict semantic comparison of the parsed versions;
if parsing raises, fall back to plain string inequality. -/
def needsMigration (fromV toV : String) : Bool :=
  match pv fromV, pv toV with
  | some x, some y => versionLt x y
  | _, _ => fromV ≠ toV

/-- `_try_direct_migration`: run the script for exactly
`(domain, fromV, toV)` if its file exists; a missing file or a raising
script both yield `none`. -/
def tryDirectMigration (env : RegistryEnv) (data : Payload)
    (fromV toV domain : String) : Option Payload :=
  match env.scripts domain fromV toV with
  | some scr => scr data
  | none => none

/-- First index of a version in the sorted list (`list.index`, as an
`Option` since a `ValueError` is caught by the caller). -/
def idxOf? : List String → String → Option Nat
  | [], _ => none
  | x :: xs, y => if x = y then some 0 else (idxOf? xs y).map (· + 1)

/-- The versions visited after `fromV` in the stepwise walk:
`versions[i+1 .. j]` for `i = index(fromV)`, `j = index(toV)`. -/
def walkChain (avail : List String) (i j : Nat) : List String :=
  (avail.drop (i + 1)).take (j - i)

/-- The loop body of `_try_step_migration`: hop from the current version
through each next version, failing the whole walk on the first hop with no
resolvable script. -/
def stepWalk (env : RegistryEnv) (domain : String) :
    Payload → String → List String → Option Payload
  | data, _, [] => some data
  | data, cur, nxt :: rest =>
      match tryDirectMigration env data cur nxt domain with
      | none => none
      | some d' => stepWalk env domain d' nxt rest

/-- `_try_step_migration`: locate both versions in the sorted list, require
`from_idx < to_idx`, then walk hop by hop. -/
def tryStepMigration (env : RegistryEnv) (data : Payload)
    (fromV toV domain : String) : Option Payload :=
  let avail := env.availableVersions domain
  match idxOf? avail fromV, idxOf? avail toV with
  | some i, some j =>
      if i < j then stepWalk env domain data fromV (walkChain avail i j)
      else none
  | _, _ => none

/-- `migrate`: identity on equal versions; passthrough when
`needs_migration` is false (downgrade) or when neither the direct nor the
stepwise attempt produces a result. -/
def migrate (env : RegistryEnv) (data : Payload)
    (fromV toV domain : String) : Payload :=
  if fromV = toV then data
  else if ¬ needsMigration fromV toV then data
  else
    match tryDirectMigration env data fromV toV domain with
    | some d => d
    | none =>
        match tryStepMigration env data fromV toV domain with
        | some d => d
        | none => data

end MigrationEngine

/-! ## Dynamic contract (`src/app/contracts/base.py`)

`DynamicContract._build_model` creates a Pydantic v2 model with
`extra="forbid"` and, per field, `Field(default=config.get("default"),
ge=config["min"], le=config["max"])` (constraints only when the keys are
present; the default is `None` when absent and is **not** validated, since
`validate_default` is left off).

`_attach_rules` then decorates `apply_rules` with
`@model_validator(mode="before")` and assigns it as a plain class
attribute: `model.model_validator = classmethod(apply_rules)`.  Pydantic v2
collects validators from the class namespace at class-creation time and
bakes them into the already-built core schema; an attribute assigned after
`create_model` (with no `model_rebuild()`) is never invoked.  The faithful
semantics of `self.model(**data)` is therefore: unknown-key rejection, type
coercion, and the `ge`/`le` field constraints — with the repair/validation
pipeline never running.  `applyRules` below is the (dead) pipeline itself,
kept as a separate definition so theorems can state the divergence. -/

/-- Parse of a decimal string, for Pydantic's lax `str → float` coercion. -/
def parseDecimalChars : List Char → Option ℚ
  | [] => none
  | cs =>
      let (neg, cs) := match cs with
        | '-' :: rest => (true, rest)
        | _ => (false, cs)
      match cs.splitOn '.' with
      | [ip] =>
          (parseNatChars ip).map (fun n => if neg then -(n : ℚ) else (n : ℚ))
      | [ip, fp] =>
          (parseNatChars ip).bind fun n =>
            (parseNatChars fp).map fun m =>
              let q : ℚ := (n : ℚ) + (m : ℚ) / ((10 : ℚ) ^ fp.length)
              if neg then -q else q
      | _ => none

/-- Pydantic v2 lax coercion of an input value to the field's declared
type (`_parse_type` maps unknown type strings to `float`).  `none` models a
coercion failure, i.e. a `ValidationError`. -/
def coerceValue (t : String) (v : Value) : Option Value :=
  if t = "int" then
    match v with
    | .vint n => some (.vint n)
    | .vfloat q => if q.den = 1 then some (.vint q.num) else none
    | .vstr s => (s.toInt?).map .vint
    | _ => none
  else if t = "str" then
    match v with
    | .vstr s => some (.vstr s)
    | _ => none
  else if t = "bool" then
    match v with
    | .vbool b => some (.vbool b)
    | .vint 0 => some (.vbool false)
    | .vint 1 => some (.vbool true)
    | _ => none
  else
    match v with
    | .vfloat q => some (.vfloat q)
    | .vint n => some (.vfloat (n : ℚ))
    | .vstr s => (parseDecimalChars s.toList).map .vfloat
    | _ => none

/-- Pydantic's per-field validation: coerce to the declared type, then
check the `ge` (`min`) and `le` (`max`) constraints. -/
def fieldCheck (fieldName : String) (fc : FieldConfig) (v : Value) :
    Except CErr Value :=
  match coerceValue fc.ftype v with
  | none => .error (.validationFailed fieldName)
  | some v' =>
      match toNum v' with
      | some q =>
          match fc.minB with
          | some m =>
              if q < m then .error (.validationFailed fieldName)
              else
                match fc.maxB with
                | some mx =>
                    if mx < q then .error (.validationFailed fieldName) else .ok v'
                | none => .ok v'
          | none =>
              match fc.maxB with
              | some mx =>
                  if mx < q then .error (.validationFailed fieldName) else .ok v'
              | none => .ok v'
      | none => .ok v'

/-- Build the validated field mapping in declaration order: a present value
is checked; an absent field takes `Field(default=config.get("default"))`,
i.e. `None` when no default is configured, without validation. -/
def buildFields : List (String × FieldConfig) → Payload → Except CErr Payload
  | [], _ => .ok []
  | (fn, fc) :: rest, data =>
      match kvLookup data fn with
      | some v =>
          match fieldCheck fn fc v with
          | .error e => .error e
          | .ok v' =>
              match buildFields rest data with
              | .error e => .error e
              | .ok tl => .ok ((fn, v') :: tl)
      | none =>
          match buildFields rest data with
          | .error e => .error e
          | .ok tl => .ok ((fn, fc.defaultV.getD .vnone) :: tl)

/-- First payload key that is not a declared field, if any
(the `extra="forbid"` check). -/
def extraKey (fields : List (String × FieldConfig)) : Payload → Option String
  | [] => none
  | (k, _) :: rest =>
      if fields.any (fun fp => fp.1 = k) then extraKey fields rest else some k

/-- `self.model(**data)`: reject unknown keys (`extra="forbid"`), then
validate each declared field. -/
def validateModel (fields : List (String × FieldConfig)) (data : Payload) :
    Except CErr Payload :=
  match extraKey fields data with
  | some k => .error (.validationFailed k)
  | none => buildFields fields data

/-- Repair pass of the (never-registered) `apply_rules` validator: for each
configured field present in the payload with a `repair` directive, replace
the value by the repaired one. -/
def repairPass : List (String × FieldConfig) → Payload → Except CErr Payload
  | [], d => .ok d
  | (fn, fc) :: rest, d =>
      match kvLookup d fn, fc.repairR with
      | some v, some r =>
          match RepairRule.applyR r v fc with
          | .error e => .error e
          | .ok v' => repairPass rest (kvUpdate d fn v')
      | _, _ => repairPass rest d

/-- Validation pass of `apply_rules`: apply each configured `validation`
directive to the (already repaired) present values. -/
def valPass : List (String × FieldConfig) → Payload → Except CErr Unit
  | [], _ => .ok ()
  | (fn, fc) :: rest, d =>
      match kvLookup d fn, fc.validateR with
      | some v, some r =>
          match ValidationRule.applyV r fn v fc with
          | .error e => .error e
          | .ok _ => valPass rest d
      | _, _ => valPass rest d

/-- The body of `apply_rules` in `_attach_rules`: repair every configured
field, then run the validation rules, returning the repaired data.  This is
what the code intends `self.model(**data)` to run first — and never does
(see the module comment above). -/
def applyRules (fields : List (String × FieldConfig)) (data : Payload) :
    Except CErr Payload :=
  match repairPass fields data with
  | .error e => .error e
  | .ok d1 =>
      match valPass fields d1 with
      | .error e => .error e
      | .ok _ => .ok d1

/-- A compiled contract (`DynamicContract`): name, version and the config
it was built from.  Construction is a pure function of these. -/
structure Contract where
  name : String
  version : String
  config : ContractConfig

/-- Execution result (`ContractExecutionResult`): metadata values are
booleans (drift flags) or strings (version provenance). -/
inductive MetaV where
  | mb : Bool → MetaV
  | ms : String → MetaV
  deriving DecidableEq

structure ExecResult where
  validatedData : Payload
  predictions : Option (List ℚ)
  metadata : List (String × MetaV)
  deriving DecidableEq

/-- The inference vector: `np.array([getattr(validated, f) for f in fields],
dtype=np.float32)` — a non-numeric (in particular `None`) entry raises. -/
def buildVector : List (String × FieldConfig) → Payload → Except CErr (List ℚ)
  | [], _ => .ok []
  | (fn, _) :: rest, vd =>
      match toNum ((kvLookup vd fn).getD .vnone) with
      | some q =>
          match buildVector rest vd with
          | .error e => .error e
          | .ok tl => .ok (q :: tl)
      | none => .error .typeErr

/-- Drift sweep of `execute`: for every field with a `drift` directive,
check the validated value; collect the aggregate flag and the per-field
`<field>_drift` metadata entries in field order. -/
def driftSweep : List (String × FieldConfig) → Payload →
    Except CErr (Bool × List (String × MetaV))
  | [], _ => .ok (false, [])
  | (fn, fc) :: rest, vd =>
      match fc.driftR with
      | some dc =>
          match DriftDetector.checkDrift dc ((kvLookup vd fn).getD .vnone) with
          | .error e => .error e
          | .ok hit =>
              match driftSweep rest vd with
              | .error e => .error e
              | .ok (flag, entries) =>
                  if hit then .ok (true, (fn ++ "_drift", .mb true) :: entries)
                  else .ok (flag, entries)
      | none => driftSweep rest vd

/-- `DynamicContract.execute`: validate (the dead `apply_rules` never
runs), optionally run inference on the positional vector, then sweep for
drift and assemble the metadata (`drift_detected` first, per-field flags
after, matching dict insertion order). -/
def Contract.execute (c : Contract) (data : Payload) : Except CErr ExecResult :=
  match validateModel c.config.fields data with
  | .error e => .error e
  | .ok vd =>
      let preds : Except CErr (Option (List ℚ)) :=
        match c.config.mlPredict with
        | none => .ok none
        | some f =>
            match buildVector c.config.fields vd with
            | .error e => .error e
            | .ok vec => .ok (some (f vec))
      match preds with
      | .error e => .error e
      | .ok p =>
          match driftSweep c.config.fields vd with
          | .error e => .error e
          | .ok (flag, entries) =>
              .ok { validatedData := vd
                    predictions := p
                    metadata := ("drift_detected", .mb flag) :: entries }

/-! ## Registry (`src/app/contracts/registry.py` + `timed_cache`)

`ContractRegistry.load` sits behind the `timed_cache` decorator
(`performance.py`), whose key is derived from the call arguments — modelled
as the `(domain, version)` pair — and in addition consults the class-level
`_contracts` dict.  TTL expiry and LRU capacity eviction only shrink the
caches; the claims below quantify over cache states, so an expired or
evicted entry is simply a state in which the key is absent. -/

structure RegState where
  lru : List ((String × String) × Contract) := []
  contracts : List ((String × String) × Contract) := []

/-- `ContractRegistry.load` (sequential semantics): `timed_cache` lookup,
then the `_contracts` lookup, then `ContractLoader.load` — a missing schema
file raises `FileNotFoundError`, re-raised as
`ContractNotFoundError(domain, version)` — then `DynamicContract`
construction and insertion into both caches. -/
def ContractRegistry.load (env : RegistryEnv) (st : RegState)
    (domain version : String) : Except CErr (Contract × RegState) :=
  match kvLookup st.lru (domain, version) with
  | some c => .ok (c, st)
  | none =>
      match kvLookup st.contracts (domain, version) with
      | some c => .ok (c, { st with lru := kvUpdate st.lru (domain, version) c })
      | none =>
          match env.schemaSource domain version with
          | none => .error (.contractNotFound domain version)
          | some cfg =>
              let c : Contract := { name := domain, version := version, config := cfg }
              .ok (c, { lru := kvUpdate st.lru (domain, version) c
                        contracts := kvUpdate st.contracts (domain, version) c })

/-- The `result.metadata.update({...})` call of `execute_with_migration`:
set the migration provenance keys in dict order. -/
def addMigrationMeta (r : ExecResult) (version target : String) : ExecResult :=
  { r with
    metadata := kvUpdate (kvUpdate (kvUpdate r.metadata
      "migrated" (.mb true)) "source_version" (.ms version))
      "target_version" (.ms target) }

/-- Target-version resolution at the top of `execute_with_migration`:
an explicit target is used as given; otherwise the domain's latest version,
raising `ValueError` when the domain has no versions. -/
def resolveTarget (env : RegistryEnv) (domain : String) :
    Option String → Except CErr String
  | some t => .ok t
  | none =>
      match MigrationEngine.getLatestVersion env domain with
      | some t => .ok t
      | none => .error (.noVersions domain)

/-- `ContractRegistry.execute_with_migration`: resolve a missing target to
the latest version, load the source contract, execute directly on equal
versions, otherwise migrate, load the target contract, execute, and
`metadata.update` the migration provenance. -/
def ContractRegistry.executeWithMigration (env : RegistryEnv) (st : RegState)
    (domain version : String) (data : Payload) (targetVersion : Option String) :
    Except CErr (ExecResult × RegState) :=
  match resolveTarget env domain targetVersion with
  | .error e => .error e
  | .ok target =>
      match ContractRegistry.load env st domain version with
      | .error e => .error e
      | .ok (sourceContract, st1) =>
          if version = target then
            match sourceContract.execute data with
            | .error e => .error e
            | .ok r => .ok (r, st1)
          else
            match ContractRegistry.load env st1 domain target with
            | .error e => .error e
            | .ok (targetContract, st2) =>
                match targetContract.execute
                    (MigrationEngine.migrate env data version target domain) with
                | .error e => .error e
                | .ok r => .ok (addMigrationMeta r version target, st2)

/-! ## Concurrent `Load` (`timed_cache` wrapper, interleaving model)

For the single-flight claim we model two threads running
`ContractRegistry.load` for the same uncached `(domain, version)` key.
Each thread executes the wrapper's steps; the shared state holds the two
cache layers for that key and a construction counter.  Atomic steps (each
protected by at most one `LRUCache` lock acquisition, or a single
GIL-atomic dict operation):

* pc 0 — `cache.get(key)` of `timed_cache` (lock-atomic): hit returns the
  entry, miss falls through to the wrapped function;
* pc 1 — the `_contracts` dict check inside `load`: hit yields that
  instance, miss falls through to construction;
* pc 2 — `ContractLoader.load` + `DynamicContract(...)` + the
  `_contracts[domain][version] = contract` insert.  Each construction
  yields a fresh instance, numbered by the counter (instances are distinct
  Python objects; "same instance" is reference equality, i.e. equal
  numbers).  Modelling this whole phase as one atomic step only shrinks
  the set of interleavings, so any behaviour exhibited here is a behaviour
  of the code;
* pc 3 — `cache.put(key, result)` (lock-atomic) and return.

No step spans the gap between the pc-0/pc-1 misses and the pc-2 build:
nothing in the code holds a lock across it. -/

structure SFState where
  lru : Option Nat := none
  tbl : Option Nat := none
  builds : Nat := 0
  deriving DecidableEq

structure SFThread where
  pc : Nat := 0
  loc : Nat := 0
  ret : Option Nat := none
  deriving DecidableEq

/-- One atomic step of a thread running `load` for the shared key. -/
def sfStep (s : SFState) (t : SFThread) : SFState × SFThread :=
  match t.pc with
  | 0 =>
      match s.lru with
      | some v => (s, { t with ret := some v, pc := 4 })
      | none => (s, { t with pc := 1 })
  | 1 =>
      match s.tbl with
      | some v => (s, { t with loc := v, pc := 3 })
      | none => (s, { t with pc := 2 })
  | 2 => ({ s with tbl := some s.builds, builds := s.builds + 1 },
          { t with loc := s.builds, pc := 3 })
  | 3 => ({ s with lru := some t.loc }, { t with ret := some t.loc, pc := 4 })
  | _ => (s, t)

structure SFSys where
  st : SFState := {}
  t1 : SFThread := {}
  t2 : SFThread := {}
  deriving DecidableEq

/-- Run a schedule over two concurrent `load` calls
(`false` steps thread 1, `true` steps thread 2). -/
def sfRun : List Bool → SFSys → SFSys
  | [], sys => sys
  | b :: rest, sys =>
      if b then
        let (s', t') := sfStep sys.st sys.t2
        sfRun rest { sys with st := s', t2 := t' }
      else
        let (s', t') := sfStep sys.st sys.t1
        sfRun rest { sys with st := s', t1 := t' }

/-! ## Concrete fixtures -/

/-- Modelled from the spec: the telemetry v2 field schema
(`schemas/telemetry/v2.yaml` is declarative data, not under `src/`).  §8:
bounds `temp_c ∈ [-40, 60]` and `humidity ∈ [0, 100]`, clamp repair on
both, humidity default `50.0`, drift on `temp_c` with expected mean `22.0`
and threshold `5.0`. -/
def telemetryFields : List (String × FieldConfig) :=
  [("temp_c",
    { ftype := "float", minB := some (-40), maxB := some 60,
      repairR := some "clamp",
      driftR := some { expectedMean := some 22, threshold := some 5 } }),
   ("humidity",
    { ftype := "float", minB := some 0, maxB := some 100,
      repairR := some "clamp", defaultV := some (.vfloat 50) })]

/-- The telemetry v2 contract (no inference backend bound). -/
def telemetryV2 : Contract :=
  { name := "telemetry", version := "v2", config := { fields := telemetryFields } }

/-- The out-of-range payload from the spec's repair-before-validate
property: `{"temp_c": -50.0, "humidity": 110.0}`. -/
def c1payload : Payload := [("temp_c", .vfloat (-50)), ("humidity", .vfloat 110)]

/-! ## Claim C1 -/

/-- C1: the claim says `Execute({"temp_c": -50.0, "humidity": 110.0})` on
the clamp-repair telemetry schema yields `{"temp_c": -40.0, "humidity":
100.0}` with no validation error.  On the code this fails: the
repair/validation pipeline `apply_rules` is attached to the built model as
a plain attribute after `create_model`, which Pydantic v2 never registers,
so `self.model(**data)` runs only the `Field(ge/le)` constraints and
rejects `-50.0 < -40` — while the code's own intended pipeline
(`apply_rules`, second conjunct) would have clamped both values exactly as
the claim and the repo's `test_contract_repair` state. -/
theorem c1_clamp_repair_dead_validator :
    Contract.execute telemetryV2 c1payload = .error (.validationFailed "temp_c") ∧
    applyRules telemetryFields c1payload =
      .ok [("temp_c", .vfloat (-40)), ("humidity", .vfloat 100)] := by
  decide

/-! ## Claim C7 -/

/-- C7: `migrate(payload, v, v, domain)` returns the payload unchanged for
every environment, payload, version and domain — confirmed: `migrate`
returns its input immediately on equal versions. -/
theorem c7_migrate_identity (env : RegistryEnv) (data : Payload) (v domain : String) :
    MigrationEngine.migrate env data v v domain = data := by
  simp [MigrationEngine.migrate]

/-! ## Claim C6 -/

/-- Modelled from the spec: "`NeedsMigration(a,b)` is true iff `a` strictly
precedes `b`" under semantic-version comparison — when either side has no
semantic-version parse, no strict precedence holds. -/
def specStrictPrecedes (a b : String) : Bool :=
  match pv a, pv b with
  | some x, some y => versionLt x y
  | _, _ => false

/-- C6 counterexample: for the unparsable version strings `"vx"`, `"vy"`
(numeric component `"x"`/`"y"` raises `InvalidVersion`), `needs_migration`
falls back to string inequality and returns `true`, although `"vx"` does
not strictly precede `"vy"` under semantic-version comparison — so the
claimed iff fails. -/
theorem c6_fallback_counterexample :
    MigrationEngine.needsMigration "vx" "vy" = true ∧
    specStrictPrecedes "vx" "vy" = false := by
  decide

/-- C6 amended: when both versions parse, `needs_migration` is exactly the
strict semantic-version comparison; when either fails to parse it is plain
string inequality; and `needs_migration(v, v)` is always `false`. -/
theorem c6_needs_migration_amended :
    (∀ a b x y, pv a = some x → pv b = some y →
        MigrationEngine.needsMigration a b = versionLt x y) ∧
    (∀ a b, pv a = none ∨ pv b = none →
        MigrationEngine.needsMigration a b = decide (a ≠ b)) ∧
    (∀ v, MigrationEngine.needsMigration v v = false) := by
  refine ⟨?_, ?_, ?_⟩
  · intro a b x y hx hy
    simp [MigrationEngine.needsMigration, hx, hy]
  · intro a b h
    rcases h with h | h
    · cases hb : pv b <;> simp [MigrationEngine.needsMigration, h, hb]
    · cases ha : pv a <;> simp [MigrationEngine.needsMigration, h, ha]
  · intro v
    cases hv : pv v
    · simp [MigrationEngine.needsMigration, hv]
    · simp [MigrationEngine.needsMigration, hv, versionLt_irrefl]

theorem c6_needs_migration_amended_witness :
    MigrationEngine.needsMigration "v1" "v2" = versionLt [1] [2] ∧
    MigrationEngine.needsMigration "vx" "vy" = decide ("vx" ≠ "vy") ∧
    MigrationEngine.needsMigration "v3" "v3" = false :=
  ⟨c6_needs_migration_amended.1 "v1" "v2" [1] [2] (by decide) (by decide),
   c6_needs_migration_amended.2.1 "vx" "vy" (Or.inl (by decide)),
   c6_needs_migration_amended.2.2 "v3"⟩

/-! ## Claim C5 -/

/-- Environment for the C5 counterexample: a single migration script keyed
by the unparsable version pair `("sensors", "va", "vb")`. -/
def envC5 : RegistryEnv :=
  { schemaSource := fun _ _ => none
    availableVersions := fun _ => []
    scripts := fun domain f t =>
      if domain = "sensors" ∧ f = "va" ∧ t = "vb" then
        some (fun _ => some [("renamed", .vint 2)])
      else none }

/-- C5 counterexample: with unparsable versions `"va"`, `"vb"` the
semantic ordering cannot be determined, yet `migrate` does not return the
payload unchanged: `needs_migration` falls back to `from != to`, the
direct script runs, and the payload is transformed. -/
theorem c5_unparsable_counterexample :
    pv "va" = none ∧ pv "vb" = none ∧
    MigrationEngine.migrate envC5 [("orig", .vint 1)] "va" "vb" "sensors" =
      [("renamed", .vint 2)] := by
  decide

/-- C5 amended: `migrate` returns the payload unchanged without attempting
any transformation whenever the versions are equal, or whenever both
versions parse and the source is not strictly earlier than the target;
when either version fails to parse, distinct strings are treated as
migratable and a script may be applied (see the counterexample). -/
theorem c5_downgrade_passthrough (env : RegistryEnv) (data : Payload)
    (fv tv domain : String)
    (h : fv = tv ∨ ∃ x y, pv fv = some x ∧ pv tv = some y ∧ versionLt x y = false) :
    MigrationEngine.migrate env data fv tv domain = data := by
  by_cases hft : fv = tv
  · simp [MigrationEngine.migrate, hft]
  · rcases h with h | ⟨x, y, hx, hy, hlt⟩
    · exact absurd h hft
    · simp [MigrationEngine.migrate, hft, MigrationEngine.needsMigration, hx, hy, hlt]

theorem c5_downgrade_passthrough_witness :
    MigrationEngine.migrate envC5 [("orig", .vint 1)] "v2" "v1" "sensors" =
      [("orig", .vint 1)] :=
  c5_downgrade_passthrough envC5 [("orig", .vint 1)] "v2" "v1" "sensors"
    (Or.inr ⟨[2], [1], by decide, by decide, by decide⟩)

/-! ## Claim C4 -/

/-- Some hop of the stepwise walk `cur → nxt₁ → nxt₂ → …` has no script
file at all. -/
def chainHasMissingHop (env : RegistryEnv) (domain : String) :
    String → List String → Prop
  | _, [] => False
  | cur, nxt :: rest =>
      env.scripts domain cur nxt = none ∨ chainHasMissingHop env domain nxt rest

/-- A walk over a chain with a missing hop never produces a payload. -/
theorem stepWalk_none (env : RegistryEnv) (domain : String) :
    ∀ (seg : List String) (cur : String) (data : Payload),
      chainHasMissingHop env domain cur seg →
      MigrationEngine.stepWalk env domain data cur seg = none := by
  intro seg
  induction seg with
  | nil =>
      intro cur data h
      exact absurd h (by simp [chainHasMissingHop])
  | cons nxt rest ih =>
      intro cur data h
      simp only [chainHasMissingHop] at h
      rcases h with hmiss | hrest
      · simp [MigrationEngine.stepWalk, MigrationEngine.tryDirectMigration, hmiss]
      · cases hd : MigrationEngine.tryDirectMigration env data cur nxt domain with
        | none => simp [MigrationEngine.stepWalk, hd]
        | some d' =>
            simp only [MigrationEngine.stepWalk, hd]
            exact ih nxt d' hrest

/-- C4: (1) for a domain with versions `v1 < v2 < v3`, scripts for
`v1→v2` and `v2→v3` but none for `v1→v3`, `migrate` from `v1` to `v3`
composes the two scripts in order; (2) whenever any hop of a stepwise walk
has no resolvable script, the stepwise attempt yields `none` — never a
partial multi-hop result. -/
theorem c4_stepwise_migration :
    (∀ (env : RegistryEnv) (domain v1 v2 v3 : String) (data d1 d2 : Payload)
        (f g : Payload → Option Payload),
        env.availableVersions domain = [v1, v2, v3] →
        env.scripts domain v1 v2 = some f →
        env.scripts domain v2 v3 = some g →
        env.scripts domain v1 v3 = none →
        f data = some d1 → g d1 = some d2 →
        v1 ≠ v3 → v2 ≠ v3 →
        MigrationEngine.needsMigration v1 v3 = true →
        MigrationEngine.migrate env data v1 v3 domain = d2) ∧
    (∀ (env : RegistryEnv) (domain fv tv : String) (data : Payload) (i j : Nat),
        MigrationEngine.idxOf? (env.availableVersions domain) fv = some i →
        MigrationEngine.idxOf? (env.availableVersions domain) tv = some j →
        chainHasMissingHop env domain fv
          (MigrationEngine.walkChain (env.availableVersions domain) i j) →
        MigrationEngine.tryStepMigration env data fv tv domain = none) := by
  constructor
  · intro env domain v1 v2 v3 data d1 d2 f g hav h12 h23 h13 hf hg hne13 hne23 hnm
    have hidx1 : MigrationEngine.idxOf? [v1, v2, v3] v1 = some 0 := by
      simp [MigrationEngine.idxOf?]
    have hidx3 : MigrationEngine.idxOf? [v1, v2, v3] v3 = some 2 := by
      simp [MigrationEngine.idxOf?, hne13, hne23]
    have hchain : MigrationEngine.walkChain [v1, v2, v3] 0 2 = [v2, v3] := by
      simp [MigrationEngine.walkChain]
    simp [MigrationEngine.migrate, hne13, hnm,
      MigrationEngine.tryDirectMigration, h13,
      MigrationEngine.tryStepMigration, hav, hidx1, hidx3, hchain,
      MigrationEngine.stepWalk, h12, h23, hf, hg]
  · intro env domain fv tv data i j hi hj hmiss
    simp only [MigrationEngine.tryStepMigration, hi, hj]
    by_cases hij : i < j
    · simp only [if_pos hij]
      exact stepWalk_none env domain _ fv data hmiss
    · simp [hij]

/-- Environment for the C4 witness: versions `v1, v2, v3` of `telemetry`
with scripts for the two adjacent hops only. -/
def envC4 : RegistryEnv :=
  { schemaSource := fun _ _ => none
    availableVersions := fun d => if d = "telemetry" then ["v1", "v2", "v3"] else []
    scripts := fun d f t =>
      if d = "telemetry" ∧ f = "v1" ∧ t = "v2" then
        some (fun p => some (kvUpdate p "step1" (.vbool true)))
      else if d = "telemetry" ∧ f = "v2" ∧ t = "v3" then
        some (fun p => some (kvUpdate p "step2" (.vbool true)))
      else none }

/-- Environment for the C4 witness's missing-hop half: the `v2→v3` script
is absent. -/
def envC4mis : RegistryEnv :=
  { schemaSource := fun _ _ => none
    availableVersions := fun d => if d = "telemetry" then ["v1", "v2", "v3"] else []
    scripts := fun d f t =>
      if d = "telemetry" ∧ f = "v1" ∧ t = "v2" then
        some (fun p => some (kvUpdate p "step1" (.vbool true)))
      else none }

theorem c4_stepwise_migration_witness :
    MigrationEngine.migrate envC4 [("temp_c", .vfloat 25)] "v1" "v3" "telemetry" =
      [("temp_c", .vfloat 25), ("step1", .vbool true), ("step2", .vbool true)] ∧
    MigrationEngine.tryStepMigration envC4mis [("temp_c", .vfloat 25)] "v1" "v3"
      "telemetry" = none :=
  ⟨c4_stepwise_migration.1 envC4 "telemetry" "v1" "v2" "v3"
      [("temp_c", .vfloat 25)]
      [("temp_c", .vfloat 25), ("step1", .vbool true)]
      [("temp_c", .vfloat 25), ("step1", .vbool true), ("step2", .vbool true)]
      (fun p => some (kvUpdate p "step1" (.vbool true)))
      (fun p => some (kvUpdate p "step2" (.vbool true)))
      rfl rfl rfl rfl rfl rfl (by decide) (by decide) (by decide),
   c4_stepwise_migration.2 envC4mis "telemetry" "v1" "v3" [("temp_c", .vfloat 25)]
      0 2 (by decide) (by decide)
      (by simp [chainHasMissingHop, envC4mis, MigrationEngine.walkChain])⟩

/-! ## Claim C2 -/

/-- Environment for the C2 counterexample: `telemetry` has versions `v1`
and `v2` with one plain float field each, and no migration script at all —
no direct or chained path from `v1` to `v2` exists. -/
def envC2 : RegistryEnv :=
  { schemaSource := fun d v =>
      if d = "telemetry" ∧ (v = "v1" ∨ v = "v2") then
        some { fields := [("temp_c", { ftype := "float" })] }
      else none
    availableVersions := fun d => if d = "telemetry" then ["v1", "v2"] else []
    scripts := fun _ _ _ => none }

def c2payload : Payload := [("temp_c", .vfloat 25)]

/-- C2 counterexample: with no script between `v1` and `v2`,
`execute_with_migration` does return the payload unchanged (passthrough,
first component), but the caller-visible metadata is exactly
`drift_detected, migrated=True, source_version, target_version` — it
asserts a migration happened and records nowhere that no migration path
was found; the passthrough decision lives only in a log line inside
`migrate`. -/
theorem c2_metadata_counterexample :
    (ContractRegistry.executeWithMigration envC2 {} "telemetry" "v1" c2payload
        (some "v2")).toOption.map
      (fun x => (x.1.validatedData, x.1.metadata)) =
    some (c2payload,
      [("drift_detected", .mb false), ("migrated", .mb true),
       ("source_version", .ms "v1"), ("target_version", .ms "v2")]) := by
  decide

/-- C2 amended: if neither the direct nor the stepwise attempt produces a
result, `migrate` returns the input payload unchanged; the no-path
decision is only logged — the result metadata that
`execute_with_migration` hands the caller marks the execution
`migrated=True` regardless (see the counterexample), so no caller-visible
record of the missing path exists. -/
theorem c2_passthrough_amended (env : RegistryEnv) (data : Payload)
    (fv tv domain : String)
    (hd : MigrationEngine.tryDirectMigration env data fv tv domain = none)
    (hs : MigrationEngine.tryStepMigration env data fv tv domain = none) :
    MigrationEngine.migrate env data fv tv domain = data := by
  by_cases h1 : fv = tv
  · simp [MigrationEngine.migrate, h1]
  · by_cases h2 : MigrationEngine.needsMigration fv tv
    · simp [MigrationEngine.migrate, h1, h2, hd, hs]
    · simp [MigrationEngine.migrate, h1, h2]

theorem c2_passthrough_witness :
    MigrationEngine.migrate envC2 c2payload "v1" "v2" "telemetry" = c2payload :=
  c2_passthrough_amended envC2 c2payload "v1" "v2" "telemetry"
    (by decide) (by decide)

/-! ## Claim C8 -/

/-- C8: when neither cache layer holds the key and no schema source exists
for `(domain, version)`, `Registry.load` fails with
`ContractNotFoundError(domain, version)` — the `FileNotFoundError` from
the loader is caught and re-raised as the distinct `NotFound` kind. -/
theorem c8_load_not_found (env : RegistryEnv) (st : RegState)
    (domain version : String)
    (h1 : kvLookup st.lru (domain, version) = none)
    (h2 : kvLookup st.contracts (domain, version) = none)
    (h3 : env.schemaSource domain version = none) :
    ContractRegistry.load env st domain version =
      .error (.contractNotFound domain version) := by
  simp [ContractRegistry.load, h1, h2, h3]

/-- Environment for the C8 witness: no schema source at all. -/
def envC8 : RegistryEnv :=
  { schemaSource := fun _ _ => none
    availableVersions := fun _ => []
    scripts := fun _ _ _ => none }

theorem c8_load_not_found_witness :
    ContractRegistry.load envC8 {} "telemetry" "v9" =
      .error (.contractNotFound "telemetry" "v9") :=
  c8_load_not_found envC8 {} "telemetry" "v9" rfl rfl rfl

/-! ## Claim C9 -/

/-- Environment for the C9 counterexample: `telemetry` has a single
version `v1`. -/
def envC9single : RegistryEnv :=
  { schemaSource := fun d v =>
      if d = "telemetry" ∧ v = "v1" then
        some { fields := [("temp_c", { ftype := "float" })] }
      else none
    availableVersions := fun d => if d = "telemetry" then ["v1"] else []
    scripts := fun _ _ _ => none }

/-- C9 counterexample: with target omitted the target resolves to the
latest version `"v1"`, which equals the supplied version, so
`execute_with_migration` takes the direct path — and the returned metadata
carries no `target_version` (nor any version) entry at all: the resolved
target is not reflected in the result's metadata. -/
theorem c9_auto_target_counterexample :
    MigrationEngine.getLatestVersion envC9single "telemetry" = some "v1" ∧
    (ContractRegistry.executeWithMigration envC9single {} "telemetry" "v1"
        [("temp_c", .vfloat 25)] none).toOption.map
      (fun x => x.1.metadata) =
    some [("drift_detected", .mb false)] := by
  decide

/-- C9 amended: with target omitted, `execute_with_migration` resolves the
target to the domain's latest version, failing when the domain has zero
known versions; when the supplied version differs from the resolved
target, the result metadata records that resolved version under
`target_version` — but when they are equal execution is direct and no
target marker is written (see the counterexample). -/
theorem c9_auto_target_amended (env : RegistryEnv) (st : RegState)
    (domain version : String) (data : Payload) :
    (MigrationEngine.getLatestVersion env domain = none →
        ContractRegistry.executeWithMigration env st domain version data none =
          .error (.noVersions domain)) ∧
    (∀ t r st', MigrationEngine.getLatestVersion env domain = some t →
        version ≠ t →
        ContractRegistry.executeWithMigration env st domain version data none =
          .ok (r, st') →
        kvLookup r.metadata "target_version" = some (.ms t)) := by
  constructor
  · intro h
    simp [ContractRegistry.executeWithMigration, resolveTarget, h]
  · intro t r st' hlatest hne hok
    simp only [ContractRegistry.executeWithMigration, resolveTarget, hlatest] at hok
    split at hok
    · exact absurd hok (by simp)
    · rw [if_neg hne] at hok
      split at hok
      · exact absurd hok (by simp)
      · split at hok
        · exact absurd hok (by simp)
        · simp only [Except.ok.injEq, Prod.mk.injEq] at hok
          obtain ⟨hr, _⟩ := hok
          rw [← hr]
          exact kvLookup_kvUpdate_self _ _ _

/-- Environment for the C9 witness: `telemetry` has versions `v1`, `v2`
(no migration scripts, so migration is a passthrough). -/
def envC9 : RegistryEnv :=
  { schemaSource := fun d v =>
      if d = "telemetry" ∧ (v = "v1" ∨ v = "v2") then
        some { fields := [("temp_c", { ftype := "float" })] }
      else none
    availableVersions := fun d => if d = "telemetry" then ["v1", "v2"] else []
    scripts := fun _ _ _ => none }

def c9contractV1 : Contract :=
  { name := "telemetry", version := "v1",
    config := { fields := [("temp_c", { ftype := "float" })] } }

def c9contractV2 : Contract :=
  { name := "telemetry", version := "v2",
    config := { fields := [("temp_c", { ftype := "float" })] } }

/-- The registry state after the two loads of the C9 witness run. -/
def c9state : RegState :=
  { lru := [(("telemetry", "v1"), c9contractV1), (("telemetry", "v2"), c9contractV2)]
    contracts := [(("telemetry", "v1"), c9contractV1), (("telemetry", "v2"), c9contractV2)] }

/-- The result of the C9 witness run. -/
def c9result : ExecResult :=
  { validatedData := [("temp_c", .vfloat 25)]
    predictions := none
    metadata := [("drift_detected", .mb false), ("migrated", .mb true),
                 ("source_version", .ms "v1"), ("target_version", .ms "v2")] }

theorem c9_auto_target_amended_witness :
    ContractRegistry.executeWithMigration envC8 {} "telemetry" "v1" [] none =
      .error (.noVersions "telemetry") ∧
    kvLookup c9result.metadata "target_version" = some (.ms "v2") :=
  ⟨(c9_auto_target_amended envC8 {} "telemetry" "v1" []).1 rfl,
   (c9_auto_target_amended envC9 {} "telemetry" "v1" [("temp_c", .vfloat 25)]).2
      "v2" c9result c9state rfl (by decide) rfl⟩

/-! ## Claim C3 -/

/-- The interleaving of two concurrent `load` misses in which both threads
pass the cache checks before either builds: T1 and T2 each run pc 0 (LRU
miss) and pc 1 (`_contracts` miss), then each constructs. -/
def c3schedule : List Bool := [false, true, false, true, false, true, false, true]

/-- C3 counterexample: two concurrent `Load` calls for the same uncached
key can both miss and both construct — the run performs two underlying
constructions (not one) and the callers hold references to two distinct
instances (instance tags `0` and `1`).  The `LRUCache` lock protects only
the individual `get`/`put`; nothing makes the miss-check→build→install
sequence atomic. -/
theorem c3_double_build_counterexample :
    (sfRun c3schedule {}).st.builds = 2 ∧
    (sfRun c3schedule {}).t1.ret = some 0 ∧
    (sfRun c3schedule {}).t2.ret = some 1 := by
  decide

/-- C3 amended: concurrent misses for the same key may race-build
duplicate Contracts (see the counterexample); what does hold is that the
installed cache entry is the source of truth thereafter — any `load` step
that begins once the cache holds `v` returns exactly that instance,
leaves the state untouched and performs no construction. -/
theorem c3_cache_hit_amended (s : SFState) (t : SFThread) (v : Nat)
    (hlru : s.lru = some v) (hpc : t.pc = 0) :
    sfStep s t = (s, { t with ret := some v, pc := 4 }) := by
  simp [sfStep, hpc, hlru]

theorem c3_cache_hit_witness :
    sfStep { lru := some 0, tbl := some 0, builds := 1 } {} =
      ({ lru := some 0, tbl := some 0, builds := 1 },
       { pc := 4, loc := 0, ret := some 0 }) :=
  c3_cache_hit_amended { lru := some 0, tbl := some 0, builds := 1 } {} 0 rfl rfl

/-! ## Claim C10 -/

/-- If every field value present in the payload passes its check, the
model build succeeds: an absent field never causes a failure, it just
takes its (unvalidated) default. -/
theorem buildFields_ok (data : Payload) :
    ∀ fields : List (String × FieldConfig),
      (∀ fn fc v, (fn, fc) ∈ fields → kvLookup data fn = some v →
        ∃ v', fieldCheck fn fc v = .ok v') →
      ∃ vd, buildFields fields data = .ok vd := by
  intro fields
  induction fields with
  | nil => exact fun _ => ⟨[], rfl⟩
  | cons hd tl ih =>
      intro h
      obtain ⟨fn, fc⟩ := hd
      obtain ⟨vd, hvd⟩ := ih fun fn' fc' v' hm hl => h fn' fc' v' (by simp [hm]) hl
      cases hlk : kvLookup data fn with
      | some v =>
          obtain ⟨v', hv'⟩ := h fn fc v (by simp) hlk
          exact ⟨(fn, v') :: vd, by simp [buildFields, hlk, hv', hvd]⟩
      | none =>
          exact ⟨(fn, fc.defaultV.getD .vnone) :: vd, by simp [buildFields, hlk, hvd]⟩

/-- In a successful model build over distinct field names, a declared
field with no configured default that is absent from the payload comes out
bound to `None`. -/
theorem buildFields_lookup_vnone :
    ∀ (fields : List (String × FieldConfig)) (data vd : Payload)
      (f : String) (fc : FieldConfig),
      buildFields fields data = .ok vd → (f, fc) ∈ fields →
      (fields.map Prod.fst).Nodup → kvLookup data f = none →
      fc.defaultV = none → kvLookup vd f = some .vnone := by
  intro fields
  induction fields with
  | nil =>
      intro data vd f fc _ hmem
      simp at hmem
  | cons hd tl ih =>
      intro data vd f fc h hmem hnd hdata hdef
      obtain ⟨fn, fch⟩ := hd
      simp only [List.map_cons, List.nodup_cons] at hnd
      rcases List.mem_cons.mp hmem with heq | hmem'
      · obtain ⟨hf, hfc⟩ := Prod.mk.injEq .. ▸ heq
        subst hf
        subst hfc
        simp only [buildFields, hdata] at h
        cases htl : buildFields tl data with
        | error e => rw [htl] at h; exact absurd h (by simp)
        | ok tl' =>
            rw [htl] at h
            simp only [Except.ok.injEq] at h
            rw [← h]
            simp [kvLookup, hdef]
      · have hfn : fn ≠ f := by
          intro hc
          exact hnd.1 (hc ▸ List.mem_map_of_mem Prod.fst hmem')
        cases hlk : kvLookup data fn with
        | some v =>
            simp only [buildFields, hlk] at h
            cases hfcv : fieldCheck fn fch v with
            | error e => rw [hfcv] at h; exact absurd h (by simp)
            | ok v' =>
                rw [hfcv] at h
                cases htl : buildFields tl data with
                | error e => rw [htl] at h; exact absurd h (by simp)
                | ok tl' =>
                    rw [htl] at h
                    simp only [Except.ok.injEq] at h
                    rw [← h]
                    simp only [kvLookup, if_neg hfn]
                    exact ih data tl' f fc htl hmem' hnd.2 hdata hdef
        | none =>
            simp only [buildFields, hlk] at h
            cases htl : buildFields tl data with
            | error e => rw [htl] at h; exact absurd h (by simp)
            | ok tl' =>
                rw [htl] at h
                simp only [Except.ok.injEq] at h
                rw [← h]
                simp only [kvLookup, if_neg hfn]
                exact ih data tl' f fc htl hmem' hnd.2 hdata hdef

/-- C10 amended: the built model does assign default `None` to every field
whose config has no default, so *model validation* never fails on account
of an omitted field: whenever the payload has no unknown keys and every
present value passes its field check, validation succeeds and the omitted
field appears in the validated data as `None`.  Whole-contract execution,
however, can still fail afterwards — a drift directive on the omitted
field (or a bound inference backend) cannot process the `None` value (see
the counterexample) — so "executing the contract does not fail" is too
strong as stated. -/
theorem c10_optional_fields_amended
    (fields : List (String × FieldConfig)) (data : Payload)
    (f : String) (fc : FieldConfig)
    (hextra : extraKey fields data = none)
    (hchecks : ∀ fn fc' v, (fn, fc') ∈ fields → kvLookup data fn = some v →
      ∃ v', fieldCheck fn fc' v = .ok v')
    (hmem : (f, fc) ∈ fields) (hnd : (fields.map Prod.fst).Nodup)
    (hdef : fc.defaultV = none) (habs : kvLookup data f = none) :
    (validateModel fields data).toOption.map (fun vd => kvLookup vd f) =
      some (some .vnone) := by
  obtain ⟨vd, hvd⟩ := buildFields_ok data fields hchecks
  have hlk := buildFields_lookup_vnone fields data vd f fc hvd hmem hnd habs hdef
  simp [validateModel, hextra, hvd, hlk]
  exact ⟨vd, rfl, hlk⟩

theorem c10_optional_fields_amended_witness :
    (validateModel [("note", { ftype := "str" })] []).toOption.map
      (fun vd => kvLookup vd "note") = some (some .vnone) :=
  c10_optional_fields_amended [("note", { ftype := "str" })] [] "note"
    { ftype := "str" } rfl
    (fun _ _ _ _ hl => Option.noConfusion hl)
    (by simp) (by simp) rfl rfl

/-- A contract with a drift directive on a default-less field: the claim's
"executing the contract on a payload that omits that field does not fail"
is violated here. -/
def c10DriftContract : Contract :=
  { name := "telemetry", version := "v9",
    config := { fields := [("x",
      { ftype := "float",
        driftR := some { expectedMean := some 22, threshold := some 5 } })] } }

/-- C10 counterexample: the omitted default-less field `x` validates to
`None`, but the drift sweep then computes `abs(None - 22.0)`, a
`TypeError` — executing the contract on the empty payload fails, so the
claim's universally quantified "does not fail" is false on the code. -/
theorem c10_drift_none_counterexample :
    Contract.execute c10DriftContract [] = .error .typeErr := by
  decide

end ContractML
